import Mathlib

/-!
Shallow embedding of the request-authentication and session-validation
pipeline of the handyhub-admin-svc repository.

Time is modelled as `Int` (seconds); a Go `time.Duration` of `m` minutes
is `m * 60`.  `time.Now().After(t)` for current time `now` is the strict
comparison `now > t`.  Go `(value, error)` pairs are modelled with
`Except`/`Option`; `nil` pointers with `Option`.
-/

/-- Session record (models.Session / session.Session). -/
structure Session where
  sessionID : String
  userID : String
  isActive : Bool
  expiresAt : Int
  createdAt : Int
  logoutAt : Option Int
  lastActiveAt : Int
deriving Repr, DecidableEq

/-- JWT claims carried by the bearer token (middleware.Claims). -/
structure Claims where
  userID : String
  sessionID : String
  email : String
  role : String
  tokenType : String
deriving Repr, DecidableEq

/-- Cache-layer sentinel errors (models.ErrRedisGet / ErrRedisSet). -/
inductive CacheErr
  | redisGet
  | redisSet
deriving Repr, DecidableEq

/-- Errors surfaced by the authoritative session source: the sentinel
`models.ErrSessionNotFound`, wrapped transport/status/decoding failures of
`AuthClient.GetSessionById`, and `models.ErrDatabaseQuery` of the Mongo
session repository. -/
inductive InfraErr
  | sessionNotFound
  | statusError (code : Nat)
  | transportError
  | decodeError
  | databaseQuery
deriving Repr, DecidableEq

/-- Result of `validateSession`: a Go `(bool, error)` pair where the error,
when present, dominates; `nilDeref` marks the run that would dereference a
nil session pointer. -/
inductive ResolveResult
  | ok (valid : Bool)
  | err (e : InfraErr)
  | nilDeref
deriving Repr, DecidableEq

/-- Errors produced by `validateJWTToken` (both middleware variants),
named after the `errors.New` messages in the source. -/
inductive TokenErr
  | tokenExpired
  | invalidToken
  | invalidTokenClaims
  | invalidTokenType
deriving Repr, DecidableEq

/-- Outcome of `jwt.ParseWithClaims`: a parse/signature error (with the
`jwt.ErrTokenExpired` flag), a parsed-but-invalid token, or a valid token
whose claims cast gives `some c` (or `none` when the cast fails). -/
inductive ParseOutcome
  | parseError (expired : Bool)
  | parsedInvalid
  | parsed (claims : Option Claims)
deriving Repr, DecidableEq

/-- A raw bearer token before library parsing: its claims together with
whether its signing method is HMAC, whether its signature verifies under
the configured key, and whether it is expired. -/
structure RawToken where
  claims : Claims
  methodHMAC : Bool
  sigValid : Bool
  expired : Bool
deriving Repr, DecidableEq

/-- Behaviour of `jwt.ParseWithClaims` with the keyfunc of
`validateJWTToken`: a non-HMAC method makes the keyfunc fail, an invalid
signature fails verification, an expired token yields
`jwt.ErrTokenExpired`; otherwise the parsed claims are returned. -/
def parseWithClaims (t : RawToken) : ParseOutcome :=
  if !t.methodHMAC || !t.sigValid then .parseError false
  else if t.expired then .parseError true
  else .parsed (some t.claims)

/-- `validateJWTToken` of the AuthClient middleware variant: any parse
error or invalid token collapses to "invalid token"; a failed claims cast
or a non-access token type both give "invalid token claims". -/
def validateJWTToken : ParseOutcome → Except TokenErr Claims
  | .parseError _ => .error .invalidToken
  | .parsedInvalid => .error .invalidToken
  | .parsed none => .error .invalidTokenClaims
  | .parsed (some c) =>
      if c.tokenType ≠ "access" then .error .invalidTokenClaims else .ok c

/-- `validateJWTToken` of the Mongo middleware variant: expiry gets a
distinct "token expired" error and a non-access token type gets the
distinct "invalid token type" error, checked only after the token parsed
as valid. -/
def validateJWTTokenMongo : ParseOutcome → Except TokenErr Claims
  | .parseError true => .error .tokenExpired
  | .parseError false => .error .invalidToken
  | .parsedInvalid => .error .invalidToken
  | .parsed none => .error .invalidTokenClaims
  | .parsed (some c) =>
      if c.tokenType ≠ "access" then .error .invalidTokenType else .ok c

/-- The cache key built from `redisKeyPattern = "session:%s:%s"` formatted
with `(userID, sessionID)`. -/
def sessionKey (userID sessionID : String) : String :=
  "session:" ++ userID ++ ":" ++ sessionID

/-- `extractToken`: empty header or missing "Bearer " gives "", else the
prefix is trimmed. -/
def extractToken (authHeader : String) : String :=
  if authHeader = "" || !(List.isPrefixOf "Bearer ".data authHeader.data) then ""
  else String.mk (authHeader.data.drop 7)

/-- Outcome of the HTTP round trip made by `AuthClient.GetSessionById`:
either a transport error from `httpClient.Do`, or a status code with the
decoded body (`none` = JSON decode failure, `some s` = decoded response
whose `session` field is `s`, itself possibly a nil pointer). -/
inductive HttpOutcome
  | transportError
  | response (statusCode : Nat) (body : Option (Option Session))
deriving Repr, DecidableEq

/-- `AuthClient.GetSessionById`: transport errors are wrapped, 404 becomes
the sentinel `ErrSessionNotFound`, any other non-200 status is an error,
and on 200 the decoded session pointer is returned. -/
def GetSessionById : HttpOutcome → Except InfraErr (Option Session)
  | .transportError => .error .transportError
  | .response code body =>
      if code = 404 then .error .sessionNotFound
      else if code ≠ 200 then .error (.statusError code)
      else
        match body with
        | none => .error .decodeError
        | some s => .ok s

/-- One call of `validateSession` (AuthClient middleware variant): the
result together with the cache side effects it requested
(`UpdateSessionActivity` on the hit key, `CacheActiveSession` on the
freshly validated record). -/
structure ResolveCall where
  result : ResolveResult
  refreshedKey : Option String
  cached : Option Session
deriving Repr, DecidableEq

/-- `validateSession` of the AuthClient middleware variant, as a function
of the cache lookup outcome, the auth-service HTTP outcome and the current
time.  Cache hit (no error and non-nil session) short-circuits to true;
otherwise the auth service is called, its error is propagated, and a found
record is checked with `!IsActive || LogoutAt != nil || now.After(ExpiresAt)`. -/
def validateSession (sessionID userID : String)
    (cacheRes : Except CacheErr (Option Session)) (httpRes : HttpOutcome)
    (now : Int) : ResolveCall :=
  let key := sessionKey userID sessionID
  match cacheRes with
  | .ok (some _) => ⟨.ok true, some key, none⟩
  | _ =>
      match GetSessionById httpRes with
      | .error e => ⟨.err e, none, none⟩
      | .ok none => ⟨.nilDeref, none, none⟩
      | .ok (some s) =>
          if !s.isActive || s.logoutAt != none || decide (now > s.expiresAt)
          then ⟨.ok false, none, none⟩
          else ⟨.ok true, none, some s⟩

/-- Decision of the `RequireAuth` middleware for one request: a JSON
rejection with an HTTP status, a crash on the nil dereference, or
continuation with the identity attached to the request context. -/
inductive AuthDecision
  | reject (status : Nat) (msg : String)
  | crashed
  | proceed (userId sessionId email role : String)
deriving Repr, DecidableEq

/-- `RequireAuth` of the AuthClient middleware variant.  `publishOk`
records whether `PublishActivityWithDetails` succeeds; its value is only
logged and never consulted for control flow, exactly as in the source. -/
def RequireAuth (authHeader : String) (parseOut : ParseOutcome)
    (cacheRes : Except CacheErr (Option Session)) (httpRes : HttpOutcome)
    (now : Int) (publishOk : Bool) : AuthDecision :=
  let token := extractToken authHeader
  if token = "" then .reject 401 "Authorization token is required"
  else
    match validateJWTToken parseOut with
    | .error _ => .reject 401 "Invalid or expired token"
    | .ok claims =>
        match (validateSession claims.sessionID claims.userID cacheRes httpRes now).result with
        | .err _ => .reject 500 "Session validation error"
        | .nilDeref => .crashed
        | .ok false => .reject 401 "Session expired - please login again"
        | .ok true =>
            let _ := publishOk
            .proceed claims.userID claims.sessionID claims.email claims.role

/-- A value stored in the gin request context: a string or something of
another dynamic type. -/
inductive CtxValue
  | str (s : String)
  | other
deriving Repr, DecidableEq

/-- Decision of the `RequireAdminRights` middleware. -/
inductive GateDecision
  | reject (status : Nat) (msg : String)
  | proceed
deriving Repr, DecidableEq

/-- `RequireAdminRights`: missing context role is 401, a non-string role
value is 500, a non-admin role is 403, and "admin" continues to the
protected handler. -/
def RequireAdminRights (userRole : Option CtxValue) : GateDecision :=
  match userRole with
  | none => .reject 401 "Authentication required"
  | some .other => .reject 500 "Invalid user role format"
  | some (.str role) =>
      if role ≠ "admin" then
        .reject 403 "Access forbidden - admin privileges required"
      else .proceed

/-- Cache configuration: `session-expiration-minutes`. -/
structure CacheConfig where
  sessionExpirationMinutes : Int
deriving Repr, DecidableEq

/-- One Redis entry: key, stored session and absolute expiry instant. -/
structure RedisEntry where
  key : String
  value : Session
  expireAt : Int
deriving Repr, DecidableEq

/-- Redis state: the live entries. -/
structure Redis where
  entries : List RedisEntry
deriving Repr, DecidableEq

/-- Redis GET at instant `now`: an entry answers while its TTL has not
elapsed. -/
def Redis.get (r : Redis) (now : Int) (key : String) : Option Session :=
  match r.entries.find? (fun e => e.key == key && decide (now < e.expireAt)) with
  | some e => some e.value
  | none => none

/-- Redis SET with an absolute expiry instant; overwrites the key. -/
def Redis.set (r : Redis) (key : String) (v : Session) (expireAt : Int) : Redis :=
  ⟨⟨key, v, expireAt⟩ :: r.entries.filter (fun e => e.key != key)⟩

/-- `cacheService.CacheActiveSession`: writes the session under the key
`fmt.Sprintf("session:%s:%s", session.SessionID, session.SessionID)` with
TTL `time.Until(LastActiveAt + SessionExpirationMinutes)`; when that TTL
is not positive it skips the write and returns nil.  `setFails` models a
failing Redis SET (`ErrRedisSet`). -/
def CacheActiveSession (cfg : CacheConfig) (now : Int) (setFails : Bool)
    (r : Redis) (s : Session) : Redis × Option CacheErr :=
  let key := "session:" ++ s.sessionID ++ ":" ++ s.sessionID
  let expiration := s.lastActiveAt + cfg.sessionExpirationMinutes * 60 - now
  if expiration ≤ 0 then (r, none)
  else if setFails then (r, some .redisSet)
  else (r.set key s (now + expiration), none)

/-- `CacheActiveSession` against a healthy Redis (state only). -/
def CacheActiveSessionRedis (cfg : CacheConfig) (now : Int) (r : Redis)
    (s : Session) : Redis :=
  (CacheActiveSession cfg now false r s).1

/-- `cacheService.UpdateSessionActivity` against a healthy Redis: re-reads
the key, refreshes `LastActiveAt`, re-caches with the extended TTL; a
missing key is a silent no-op. -/
def UpdateSessionActivityRedis (cfg : CacheConfig) (now : Int) (r : Redis)
    (key : String) : Redis :=
  match r.get now key with
  | none => r
  | some s =>
      r.set key { s with lastActiveAt := now }
        (now + cfg.sessionExpirationMinutes * 60)

/-- The auth service's session store backing `GET /session/{id}`. -/
structure AuthStore where
  sessions : List Session
deriving Repr, DecidableEq

/-- Lookup by session id in the auth service store. -/
def AuthStore.findById (a : AuthStore) (sid : String) : Option Session :=
  a.sessions.find? (fun s => s.sessionID == sid)

/-- State threaded through successive resolutions in the AuthClient
variant: the Redis cache, the auth service store, and a counter of
authoritative calls. -/
structure RunState where
  redis : Redis
  auth : AuthStore
  authCalls : Nat
deriving Repr, DecidableEq

/-- `validateSession` (AuthClient variant) interpreted against a healthy
Redis and a healthy auth service, counting authoritative calls.  Not-found
at the service is the `ErrSessionNotFound` error, exactly as
`GetSessionById` maps a 404. -/
def validateSessionRun (cfg : CacheConfig) (now : Int) (st : RunState)
    (sessionID userID : String) : RunState × ResolveResult :=
  let key := sessionKey userID sessionID
  match st.redis.get now key with
  | some _ =>
      ({ st with redis := UpdateSessionActivityRedis cfg now st.redis key }, .ok true)
  | none =>
      let st1 := { st with authCalls := st.authCalls + 1 }
      match st1.auth.findById sessionID with
      | none => (st1, .err .sessionNotFound)
      | some s =>
          if !s.isActive || s.logoutAt != none || decide (now > s.expiresAt)
          then (st1, .ok false)
          else ({ st1 with redis := CacheActiveSessionRedis cfg now st1.redis s }, .ok true)

/-- The Mongo session collection used by `session.Repository`. -/
structure MongoStore where
  sessions : List Session
deriving Repr, DecidableEq

/-- `repository.GetByID`: `FindOne` on `session_id`. -/
def MongoStore.getByID (db : MongoStore) (sid : String) : Option Session :=
  db.sessions.find? (fun s => s.sessionID == sid)

/-- `repository.UpdateActivity`: `UpdateOne` with filter
`{session_id, is_active: true}` and update `$set {last_active_at: now}`;
no other field is touched. -/
def MongoStore.updateActivity (db : MongoStore) (now : Int) (sid : String) :
    MongoStore :=
  ⟨db.sessions.map (fun s =>
      if s.sessionID == sid && s.isActive then { s with lastActiveAt := now } else s)⟩

/-- State threaded through successive resolutions in the Mongo variant. -/
structure RunStateMongo where
  redis : Redis
  db : MongoStore
deriving Repr, DecidableEq

/-- `validateSession` of the Mongo middleware variant against a healthy
Redis and Mongo: cache hit refreshes activity in cache and Mongo; on miss
the record is fetched and checked (`IsActive`, `LogoutAt`, strict
`now.After(ExpiresAt)` in that order); a valid record gets its local
`LastActiveAt` set to now, Mongo activity updated, and is re-cached. -/
def validateSessionMongo (cfg : CacheConfig) (now : Int) (st : RunStateMongo)
    (sessionID userID : String) : RunStateMongo × ResolveResult :=
  let key := sessionKey userID sessionID
  match st.redis.get now key with
  | some _ =>
      (⟨UpdateSessionActivityRedis cfg now st.redis key,
        st.db.updateActivity now sessionID⟩, .ok true)
  | none =>
      match st.db.getByID sessionID with
      | none => (st, .err .sessionNotFound)
      | some s =>
          if !s.isActive then (st, .ok false)
          else if s.logoutAt != none then (st, .ok false)
          else if decide (now > s.expiresAt) then (st, .ok false)
          else
            (⟨CacheActiveSessionRedis cfg now st.redis { s with lastActiveAt := now },
              st.db.updateActivity now sessionID⟩, .ok true)

/-- A concrete valid session used in concrete evaluations. -/
def demoSession : Session :=
  { sessionID := "sess7", userID := "user42", isActive := true,
    expiresAt := 100000, createdAt := 0, logoutAt := none, lastActiveAt := 1000 }

/-- A concrete cache configuration: 30-minute session expiration. -/
def demoCfg : CacheConfig := ⟨30⟩

/-- Initial run state: empty cache, auth service knowing `demoSession`. -/
def demoState : RunState := ⟨⟨[]⟩, ⟨[demoSession]⟩, 0⟩

/-- Access-token claims matching `demoSession`. -/
def demoClaims : Claims :=
  { userID := "user42", sessionID := "sess7", email := "a@b.c",
    role := "admin", tokenType := "access" }

/-- Refresh-token claims (credential kind is not "access"). -/
def refreshClaims : Claims :=
  { userID := "user42", sessionID := "sess7", email := "a@b.c",
    role := "admin", tokenType := "refresh" }

/-- A session whose expiry instant is exactly 100. -/
def boundarySession : Session :=
  { sessionID := "sB", userID := "uB", isActive := true,
    expiresAt := 100, createdAt := 0, logoutAt := none, lastActiveAt := 100 }

/-- An active, unexpired session that nevertheless has a logout timestamp. -/
def loggedOutSession : Session :=
  { sessionID := "sL", userID := "uL", isActive := true,
    expiresAt := 100000, createdAt := 0, logoutAt := some 50, lastActiveAt := 40 }

/-- A refresh token whose signature does not verify. -/
def badSigRefreshToken : RawToken :=
  { claims := refreshClaims, methodHMAC := true, sigValid := false, expired := false }

/-- A refresh token with a valid HMAC signature, not expired. -/
def validRefreshToken : RawToken :=
  { claims := refreshClaims, methodHMAC := true, sigValid := true, expired := false }

/-- C1 counterexample: with a cache miss and the authoritative source
answering 404, the resolver result is the `ErrSessionNotFound` error, not
the plain `false` the claim requires. -/
theorem notFound_is_error_at_404 :
    (validateSession "sess7" "user42" (Except.ok none)
        (HttpOutcome.response 404 none) 0).result
      = ResolveResult.err InfraErr.sessionNotFound ∧
    ResolveResult.err InfraErr.sessionNotFound ≠ ResolveResult.ok false := by
  exact ⟨rfl, by decide⟩

/-- C1 amended: a not-found answer from the authoritative source is
surfaced as the `ErrSessionNotFound` error (so `RequireAuth` rejects with
HTTP 500 "Session validation error"), not as a normal invalid-session
`false`. -/
theorem notFound_surfaced_as_error (sessionID userID : String)
    (body : Option (Option Session)) (now : Int) :
    (validateSession sessionID userID (Except.ok none)
        (HttpOutcome.response 404 body) now).result
      = ResolveResult.err InfraErr.sessionNotFound ∧
    RequireAuth "Bearer t" (ParseOutcome.parsed (some demoClaims))
        (Except.ok none) (HttpOutcome.response 404 body) 0 true
      = AuthDecision.reject 500 "Session validation error" := by
  exact ⟨rfl, rfl⟩

/-- C3 counterexample: a session whose `expiresAt` equals the current
instant is resolved as valid (`true`), not treated as expired. -/
theorem boundary_expiry_returns_true :
    (validateSession "sB" "uB" (Except.ok none)
        (HttpOutcome.response 200 (some (some boundarySession))) 100).result
      = ResolveResult.ok true := by
  rfl

/-- C3 amended: the expiry check is `time.Now().After(ExpiresAt)`, a
strictly-greater comparison, so a session whose `expiresAt` equals now is
still resolved as valid; only `now > expiresAt` is rejected as expired. -/
theorem expiry_check_is_strictly_after (sessionID userID : String)
    (s : Session) (now : Int) (hA : s.isActive = true)
    (hL : s.logoutAt = none) (hE : s.expiresAt = now) :
    (validateSession sessionID userID (Except.ok none)
        (HttpOutcome.response 200 (some (some s))) now).result
      = ResolveResult.ok true := by
  simp [validateSession, GetSessionById, hA, hL, hE]

/-- C3 witness: the amended theorem at the concrete boundary session. -/
theorem expiry_check_is_strictly_after_witness :
    (validateSession "sB" "uB" (Except.ok none)
        (HttpOutcome.response 200 (some (some boundarySession))) 100).result
      = ResolveResult.ok true :=
  expiry_check_is_strictly_after "sB" "uB" boundarySession 100 rfl rfl rfl

/-- C4: a failing cache lookup makes `validateSession` behave exactly as
on a plain cache miss — identical result and identical side effects — so
a cache failure alone never rejects the request. -/
theorem cache_error_same_as_miss (sessionID userID : String) (e : CacheErr)
    (httpRes : HttpOutcome) (now : Int) :
    validateSession sessionID userID (Except.error e) httpRes now
      = validateSession sessionID userID (Except.ok none) httpRes now := by
  rfl

/-- C6: the authorization gate rejects a missing context role with HTTP
401, rejects any attached non-admin role string with HTTP 403 (the
protected handler is never invoked), and proceeds on "admin". -/
theorem admin_gate_decisions :
    RequireAdminRights none = GateDecision.reject 401 "Authentication required" ∧
    (∀ role : String, role ≠ "admin" →
      RequireAdminRights (some (CtxValue.str role))
        = GateDecision.reject 403 "Access forbidden - admin privileges required") ∧
    RequireAdminRights (some (CtxValue.str "admin")) = GateDecision.proceed := by
  refine ⟨rfl, ?_, rfl⟩
  intro role h
  simp [RequireAdminRights, h]

/-- C6 witness: a "client" role is rejected with HTTP 403. -/
theorem admin_gate_decisions_witness :
    RequireAdminRights (some (CtxValue.str "client"))
      = GateDecision.reject 403 "Access forbidden - admin privileges required" :=
  admin_gate_decisions.2.1 "client" (by decide)

/-- C7: an authoritative record with a logout timestamp resolves to
`false`, even when the record is active and its expiry lies in the
future. -/
theorem logout_set_returns_false (sessionID userID : String) (s : Session)
    (now t : Int) (hL : s.logoutAt = some t) (hA : s.isActive = true)
    (hE : now < s.expiresAt) :
    (validateSession sessionID userID (Except.ok none)
        (HttpOutcome.response 200 (some (some s))) now).result
      = ResolveResult.ok false := by
  simp [validateSession, GetSessionById, hL]

/-- C7 witness: the concrete logged-out-but-unexpired session resolves to
`false`. -/
theorem logout_set_returns_false_witness :
    (validateSession "sL" "uL" (Except.ok none)
        (HttpOutcome.response 200 (some (some loggedOutSession))) 60).result
      = ResolveResult.ok false :=
  logout_set_returns_false "sL" "uL" loggedOutSession 60 50 rfl rfl (by decide)

/-- C10: when `LastActiveAt` plus the configured session expiration is not
after `now`, `CacheActiveSession` skips the Redis write and returns nil,
regardless of whether a write would have failed. -/
theorem stale_session_not_cached (cfg : CacheConfig) (now : Int)
    (setFails : Bool) (r : Redis) (s : Session)
    (h : s.lastActiveAt + cfg.sessionExpirationMinutes * 60 ≤ now) :
    CacheActiveSession cfg now setFails r s = (r, none) := by
  simp only [CacheActiveSession]
  rw [if_pos (by omega)]

/-- C10 witness: the skip branch at a concrete stale session. -/
theorem stale_session_not_cached_witness :
    CacheActiveSession demoCfg 999999 false ⟨[]⟩ demoSession = (⟨[]⟩, none) :=
  stale_session_not_cached demoCfg 999999 false ⟨[]⟩ demoSession (by decide)

/-- C5: once the token verified and the session resolved to `true`, the
activity-publish outcome does not influence the decision: identity is
attached and the request proceeds, whether the publish succeeded or
failed. -/
theorem publish_failure_nonfatal (authHeader : String)
    (parseOut : ParseOutcome) (cacheRes : Except CacheErr (Option Session))
    (httpRes : HttpOutcome) (now : Int) (c : Claims)
    (hTok : extractToken authHeader ≠ "")
    (hClaims : validateJWTToken parseOut = Except.ok c)
    (hSess : (validateSession c.sessionID c.userID cacheRes httpRes now).result
      = ResolveResult.ok true) (publishOk : Bool) :
    RequireAuth authHeader parseOut cacheRes httpRes now publishOk
      = AuthDecision.proceed c.userID c.sessionID c.email c.role := by
  simp only [RequireAuth, hClaims, hSess, if_neg hTok]

/-- C5 witness: a failing publish (`publishOk = false`) after a cache-hit
authentication still proceeds with the identity attached. -/
theorem publish_failure_nonfatal_witness :
    RequireAuth "Bearer tok" (ParseOutcome.parsed (some demoClaims))
        (Except.ok (some demoSession)) HttpOutcome.transportError 0 false
      = AuthDecision.proceed "user42" "sess7" "a@b.c" "admin" :=
  publish_failure_nonfatal "Bearer tok" (ParseOutcome.parsed (some demoClaims))
    (Except.ok (some demoSession)) HttpOutcome.transportError 0 demoClaims
    (by decide) rfl rfl false

/-- C8 counterexample: a token whose credential kind is "refresh" but
whose signature does not verify fails with the generic invalid-token
error, not with the distinct wrong-kind error the claim requires for all
such tokens regardless of signature validity. -/
theorem wrong_kind_bad_signature_generic_error :
    validateJWTTokenMongo (parseWithClaims badSigRefreshToken)
      = Except.error TokenErr.invalidToken ∧
    TokenErr.invalidToken ≠ TokenErr.invalidTokenType := by
  exact ⟨rfl, by decide⟩

/-- C8 amended: a token that parses as valid (HMAC method, valid
signature, not expired) and whose credential-kind claim is not "access"
fails with the distinct wrong-kind error; an invalid signature instead
fails earlier with the generic invalid-token error. -/
theorem wrong_kind_rejected_when_signature_valid (t : RawToken)
    (hM : t.methodHMAC = true) (hS : t.sigValid = true)
    (hE : t.expired = false) (hK : t.claims.tokenType ≠ "access") :
    validateJWTTokenMongo (parseWithClaims t)
      = Except.error TokenErr.invalidTokenType := by
  simp [parseWithClaims, hM, hS, hE, validateJWTTokenMongo, hK]

/-- C8 witness: the amended theorem at a concrete well-signed refresh
token. -/
theorem wrong_kind_rejected_when_signature_valid_witness :
    validateJWTTokenMongo (parseWithClaims validRefreshToken)
      = Except.error TokenErr.invalidTokenType :=
  wrong_kind_rejected_when_signature_valid validRefreshToken rfl rfl rfl
    (by decide)

/-- C2: evaluation at the failing input.  With `userId = "user42"` and
`sessionId = "sess7"`, two back-to-back resolutions inside one TTL window
both return `true` yet make two authoritative calls, because the read key
is `session:user42:sess7` while `CacheActiveSession` wrote the entry
under `session:sess7:sess7`. -/
theorem cache_key_mismatch_two_auth_calls :
    (validateSessionRun demoCfg 1000 demoState "sess7" "user42").2
      = ResolveResult.ok true ∧
    (validateSessionRun demoCfg 1001
        (validateSessionRun demoCfg 1000 demoState "sess7" "user42").1
        "sess7" "user42").2 = ResolveResult.ok true ∧
    (validateSessionRun demoCfg 1001
        (validateSessionRun demoCfg 1000 demoState "sess7" "user42").1
        "sess7" "user42").1.authCalls = 2 ∧
    sessionKey "user42" "sess7" = "session:user42:sess7" ∧
    (CacheActiveSessionRedis demoCfg 1000 ⟨[]⟩ demoSession).entries.map
        RedisEntry.key = ["session:sess7:sess7"] := by
  exact ⟨rfl, rfl, rfl, rfl, rfl⟩

/-- Helper for C9: one resolution of a valid session (Mongo variant,
singleton store) returns `true` and leaves the store the same record with
only `lastActiveAt` advanced to now. -/
theorem mongo_step_valid (cfg : CacheConfig) (now : Int) (r : Redis)
    (s : Session) (hA : s.isActive = true) (hL : s.logoutAt = none)
    (hE : now ≤ s.expiresAt) :
    (validateSessionMongo cfg now ⟨r, ⟨[s]⟩⟩ s.sessionID s.userID).2
      = ResolveResult.ok true ∧
    (validateSessionMongo cfg now ⟨r, ⟨[s]⟩⟩ s.sessionID s.userID).1.db
      = ⟨[{ s with lastActiveAt := now }]⟩ := by
  have hfind : MongoStore.getByID ⟨[s]⟩ s.sessionID = some s := by
    simp [MongoStore.getByID]
  have hupd : MongoStore.updateActivity ⟨[s]⟩ now s.sessionID
      = ⟨[{ s with lastActiveAt := now }]⟩ := by
    simp [MongoStore.updateActivity, hA]
  have hlt : ¬ (now > s.expiresAt) := by omega
  unfold validateSessionMongo
  cases hget : Redis.get r now (sessionKey s.userID s.sessionID) with
  | some v => simp [hget, hupd]
  | none => simp [hget, hfind, hA, hL, hlt, hupd]

/-- C9: resolving a valid session twice in immediate succession (Mongo
variant) yields `true` both times, and the authoritative record afterwards
differs from the original at most in `lastActiveAt` — `active`,
`expiresAt` and `logoutAt` are untouched. -/
theorem idempotent_resolution_frame (cfg : CacheConfig) (now : Int)
    (r : Redis) (s : Session) (hA : s.isActive = true)
    (hL : s.logoutAt = none) (hE : now ≤ s.expiresAt) :
    (validateSessionMongo cfg now ⟨r, ⟨[s]⟩⟩ s.sessionID s.userID).2
      = ResolveResult.ok true ∧
    (validateSessionMongo cfg now
        (validateSessionMongo cfg now ⟨r, ⟨[s]⟩⟩ s.sessionID s.userID).1
        s.sessionID s.userID).2 = ResolveResult.ok true ∧
    (∃ la : Int,
      (validateSessionMongo cfg now
          (validateSessionMongo cfg now ⟨r, ⟨[s]⟩⟩ s.sessionID s.userID).1
          s.sessionID s.userID).1.db.sessions
        = [{ s with lastActiveAt := la }]) := by
  obtain ⟨h1, hdb1⟩ := mongo_step_valid cfg now r s hA hL hE
  have hst1 : (validateSessionMongo cfg now ⟨r, ⟨[s]⟩⟩ s.sessionID s.userID).1
      = ⟨(validateSessionMongo cfg now ⟨r, ⟨[s]⟩⟩ s.sessionID s.userID).1.redis,
         ⟨[{ s with lastActiveAt := now }]⟩⟩ := by
    rw [← hdb1]
  obtain ⟨h2, hdb2⟩ := mongo_step_valid cfg now
    (validateSessionMongo cfg now ⟨r, ⟨[s]⟩⟩ s.sessionID s.userID).1.redis
    { s with lastActiveAt := now } hA hL hE
  refine ⟨h1, ?_, ⟨now, ?_⟩⟩
  · rw [hst1]
    exact h2
  · rw [hst1]
    rw [hdb2]

/-- C9 witness: the double resolution at the concrete valid session,
starting from an empty cache. -/
theorem idempotent_resolution_frame_witness :
    (validateSessionMongo demoCfg 1000 ⟨⟨[]⟩, ⟨[demoSession]⟩⟩
        "sess7" "user42").2 = ResolveResult.ok true ∧
    (validateSessionMongo demoCfg 1000
        (validateSessionMongo demoCfg 1000 ⟨⟨[]⟩, ⟨[demoSession]⟩⟩
          "sess7" "user42").1 "sess7" "user42").2 = ResolveResult.ok true ∧
    (∃ la : Int,
      (validateSessionMongo demoCfg 1000
          (validateSessionMongo demoCfg 1000 ⟨⟨[]⟩, ⟨[demoSession]⟩⟩
            "sess7" "user42").1 "sess7" "user42").1.db.sessions
        = [{ demoSession with lastActiveAt := la }]) :=
  idempotent_resolution_frame demoCfg 1000 ⟨[]⟩ demoSession rfl rfl (by decide)
